import Mathlib

/-!
Shallow embedding of the dynamic-DNS synchronizer in `src/main.rs`.

The reconciliation core is modelled as pure functions over decoded provider
responses, plus an `Env` record standing for the network: each field holds the
decoded response the corresponding HTTP request would produce, with `none`
standing for a transport or decode failure (the `?` on the HTTP calls in the
source).  The orchestrator `main` becomes `run`, a function from `Env` and
`Config` to the list of provider calls issued, the console lines printed, and
the fatal error (if any) that aborted the run.

String scanning from the source (`split('.')`, `lines()`, `starts_with`,
`trim_start_matches`, `contains(':')`) is embedded over `List Char` so that
every definition evaluates inside the kernel.
-/

/-- The `CloudflareError` struct from src/main.rs: one entry of the envelope's
`errors` vector. -/
structure CloudflareError where
  code : Int
  message : String
deriving DecidableEq

/-- The generic response envelope `CloudflareResponse<T>` from src/main.rs:
`success` flag, `errors` list, and the `result` vector (empty when absent,
via `#[serde(default)]`). -/
structure CloudflareResponse (T : Type) where
  success : Bool
  errors : List CloudflareError
  result : List T
deriving DecidableEq

/-- The `Zone` struct from src/main.rs. -/
structure Zone where
  id : String
  name : String
deriving DecidableEq

/-- The `DnsRecord` struct from src/main.rs (`record_type` is the JSON field
`type`). -/
structure DnsRecord where
  id : String
  record_type : String
  name : String
  content : String
deriving DecidableEq

/-- The `DnsUpdate` payload struct from src/main.rs: the body of the PUT
request. -/
structure DnsUpdate where
  record_type : String
  name : String
  content : String
  proxied : Bool
deriving DecidableEq

/-- The `Config` struct from src/main.rs. -/
structure Config where
  auth_email : String
  auth_key : String
  domain : String
deriving DecidableEq

/-- Splitting a character list at every occurrence of `c`, mirroring Rust
`str::split(c)`: splitting `"a.b"` gives `["a", "b"]`, splitting `""` gives
`[""]`, and splitting `"a."` gives `["a", ""]`. -/
def splitCh (c : Char) : List Char → List (List Char)
  | [] => [[]]
  | a :: rest =>
    let r := splitCh c rest
    if a = c then [] :: r
    else
      match r with
      | [] => [[a]]
      | h :: t => (a :: h) :: t

/-- Joining label lists with a dot, mirroring `Vec::join(".")` in
`get_zone_id`. -/
def joinDot : List (List Char) → List Char
  | [] => []
  | [l] => l
  | l :: l2 :: ls => l ++ '.' :: joinDot (l2 :: ls)

/-- The apex-domain computation at the top of `get_zone_id` (src/main.rs lines
99-107): split `domain` on dots, reverse, take two labels, reverse back, and
join with dots. -/
def base_domain (domain : String) : String :=
  String.mk (joinDot (((splitCh '.' domain.data).reverse.take 2).reverse))

/-- Strip the pattern once from the front of a list: `some` of the remainder
when the pattern is a prefix, else `none`. -/
def stripFront : List Char → List Char → Option (List Char)
  | [], s => some s
  | _ :: _, [] => none
  | p :: ps, c :: cs => if c = p then stripFront ps cs else none

/-- Rust `str::starts_with` over character lists. -/
def startsWithL (s pat : List Char) : Bool :=
  (stripFront pat s).isSome

/-- Fuelled helper for `trimStartMatches`: repeatedly strip one leading
occurrence of the (nonempty) pattern. -/
def trimStartAux (pat : List Char) : Nat → List Char → List Char
  | 0, s => s
  | Nat.succ n, s =>
    match stripFront pat s with
    | some rest => trimStartAux pat n rest
    | none => s

/-- Rust `str::trim_start_matches`: remove every leading occurrence of the
pattern (the empty pattern removes nothing). -/
def trimStartMatches (s pat : List Char) : List Char :=
  if pat = [] then s else trimStartAux pat s.length s

/-- Rust `str::lines`: split at every newline, stripping one carriage return
just before each newline; a final segment not terminated by a newline is
yielded unchanged, and a final newline produces no extra empty line. -/
def rustLines (s : List Char) : List (List Char) :=
  let parts := splitCh '\n' s
  let init := parts.dropLast.map
    (fun l => if l.getLast? = some '\r' then l.dropLast else l)
  match parts.getLast? with
  | some [] => init
  | some last => init ++ [last]
  | none => init

/-- The fatal error kinds of a run: a transport or decode failure on any HTTP
call, or the "Zone not found" error from `get_zone_id`. -/
inductive RunError where
  | transport
  | zoneNotFound
deriving DecidableEq

/-- The envelope-handling tail of `get_zone_id` (src/main.rs lines 114-121):
the id of the first zone of `result`, or the "Zone not found" error when
`result` is empty. -/
def zone_id_from_response (resp : CloudflareResponse Zone) : Except RunError String :=
  match resp.result.head? with
  | some zone => Except.ok zone.id
  | none => Except.error RunError.zoneNotFound

/-- One step of the record scan in `get_dns_records` (src/main.rs lines
138-144, the `match record.record_type.as_str()`): an `"A"` record overwrites
the IPv4 id, an `"AAAA"` record overwrites the IPv6 id, any other type is
ignored. -/
def record_scan_step (acc : Option String × Option String) (record : DnsRecord) :
    Option String × Option String :=
  if record.record_type = "A" then (some record.id, acc.2)
  else if record.record_type = "AAAA" then (acc.1, some record.id)
  else acc

/-- The envelope-handling part of `get_dns_records` (src/main.rs lines
135-146): fold the record scan over the `result` vector in order, starting
from `(none, none)`. -/
def dns_records_of_response (resp : CloudflareResponse DnsRecord) :
    Option String × Option String :=
  resp.result.foldl record_scan_step (none, none)

/-- One step of the line scan in `get_ip_from_trace` (src/main.rs lines
189-198): a line starting with `ip=` has the marker trimmed off; a value
containing a colon overwrites the IPv6 slot, otherwise the IPv4 slot. -/
def trace_scan_step (acc : Option (List Char) × Option (List Char))
    (line : List Char) : Option (List Char) × Option (List Char) :=
  if startsWithL line ("ip=".data) then
    let ip := trimStartMatches line ("ip=".data)
    if ip.contains ':' then (acc.1, some ip)
    else (some ip, acc.2)
  else acc

/-- The text-parsing part of `get_ip_from_trace` (src/main.rs lines 186-200):
scan the response lines in order, keeping per address family the value of the
last `ip=` line seen. -/
def get_ip_from_trace (text : String) : Option String × Option String :=
  let r := (rustLines text.data).foldl trace_scan_step (none, none)
  (r.1.map String.mk, r.2.map String.mk)

/-- A provider or diagnostic HTTP request issued during a run, identified by
its address and payload. -/
inductive ApiCall where
  | getZones (name : String)
  | getRecords (zone_id name : String)
  | getTrace
  | putRecord (zone_id record_id : String) (payload : DnsUpdate)
deriving DecidableEq

/-- A console line printed during a run (the `println!` calls of
src/main.rs). -/
inductive LogLine where
  | starting (domain : String)
  | discoveringZone
  | foundZone (id : String)
  | discoveringRecords
  | foundRecords (ipv4 ipv6 : Option String)
  | updateSuccess (record_type ip : String)
  | updateFailed (record_type : String) (errors : List CloudflareError)
  | skip (family : String)
deriving DecidableEq

/-- The network environment a run executes against: each field holds the
decoded response the corresponding request would produce, `none` standing for
a transport or decode failure (the `?` on the HTTP call in the source).  PUT
responses are keyed by zone id, record id and payload. -/
structure Env where
  zoneResp : Option (CloudflareResponse Zone)
  recordsResp : Option (CloudflareResponse DnsRecord)
  traceText : Option String
  putResp : String → String → DnsUpdate → Option (CloudflareResponse DnsRecord)

/-- `get_zone_id` (src/main.rs lines 98-121) against an environment: the GET
issued to the zones-list endpoint filtered by `base_domain`, and either the
first zone's id, the "Zone not found" error, or a transport error. -/
def get_zone_id (env : Env) (domain : String) :
    List ApiCall × Except RunError String :=
  ([ApiCall.getZones (base_domain domain)],
   match env.zoneResp with
   | none => Except.error RunError.transport
   | some resp => zone_id_from_response resp)

/-- `get_dns_records` (src/main.rs lines 123-147) against an environment: the
GET issued to the zone's DNS-records endpoint, and the scanned
`(ipv4_id, ipv6_id)` pair; after a successful decode the function has no
error path. -/
def get_dns_records (env : Env) (zone_id domain : String) :
    List ApiCall × Except RunError (Option String × Option String) :=
  ([ApiCall.getRecords zone_id domain],
   match env.recordsResp with
   | none => Except.error RunError.transport
   | some resp => Except.ok (dns_records_of_response resp))

/-- `update_dns` (src/main.rs lines 149-178): build the `DnsUpdate` payload
with `proxied = false`, PUT it, and print the success line or the
provider-reported failure line; only a transport or decode failure is an
error.  Returns the calls issued, the console lines, and the fatal error if
any. -/
def update_dns (env : Env) (zone_id record_id domain ip record_type : String) :
    List ApiCall × List LogLine × Option RunError :=
  let update : DnsUpdate :=
    { record_type := record_type, name := domain, content := ip, proxied := false }
  ([ApiCall.putRecord zone_id record_id update],
   match env.putResp zone_id record_id update with
   | none => ([], some RunError.transport)
   | some resp =>
     if resp.success then ([LogLine.updateSuccess record_type ip], none)
     else ([LogLine.updateFailed record_type resp.errors], none))

/-- One address-family branch of `main` (src/main.rs lines 227-231 and
234-238): update when both the current address and the record id are present,
otherwise print a skip line and issue no call. -/
def family_step (env : Env) (zone_id domain : String)
    (ip record_id : Option String) (record_type family : String) :
    List ApiCall × List LogLine × Option RunError :=
  match ip, record_id with
  | some ip, some rid => update_dns env zone_id rid domain ip record_type
  | _, _ => ([], [LogLine.skip family], none)

/-- The two family branches of `main` in sequence; the `?` on the first
`update_dns` aborts before the IPv6 branch runs. -/
def run_families (env : Env) (zone_id domain : String)
    (ids ips : Option String × Option String) :
    List ApiCall × List LogLine × Option RunError :=
  let s4 := family_step env zone_id domain ips.1 ids.1 "A" "IPv4"
  match s4.2.2 with
  | some e => (s4.1, s4.2.1, some e)
  | none =>
    let s6 := family_step env zone_id domain ips.2 ids.2 "AAAA" "IPv6"
    (s4.1 ++ s6.1, s4.2.1 ++ s6.2.1, s6.2.2)

/-- The observable outcome of a run: the provider calls issued, the console
lines printed, and the fatal error (if any) that aborted the run. -/
structure RunResult where
  calls : List ApiCall
  logs : List LogLine
  err : Option RunError
deriving DecidableEq

/-- The orchestrator `main` (src/main.rs lines 203-241) as a function of the
environment: resolve the zone, list the records, fetch the trace, then the
two family branches; each `?` aborts the rest of the run. -/
def run (env : Env) (config : Config) : RunResult :=
  let logs0 := [LogLine.starting config.domain, LogLine.discoveringZone]
  let zq := get_zone_id env config.domain
  match zq.2 with
  | Except.error e => ⟨zq.1, logs0, some e⟩
  | Except.ok zone_id =>
    let logs1 := logs0 ++ [LogLine.foundZone zone_id, LogLine.discoveringRecords]
    let rq := get_dns_records env zone_id config.domain
    match rq.2 with
    | Except.error e => ⟨zq.1 ++ rq.1, logs1, some e⟩
    | Except.ok ids =>
      let logs2 := logs1 ++ [LogLine.foundRecords ids.1 ids.2]
      match env.traceText with
      | none => ⟨zq.1 ++ rq.1 ++ [ApiCall.getTrace], logs2, some RunError.transport⟩
      | some text =>
        let ips := get_ip_from_trace text
        let fam := run_families env zone_id config.domain ids ips
        ⟨zq.1 ++ rq.1 ++ [ApiCall.getTrace] ++ fam.1, logs2 ++ fam.2.1, fam.2.2⟩

/-- The `ip=`-line extractor implicit in the loop of `get_ip_from_trace`:
`some` of the trimmed value for a line starting with `ip=`, else `none`. -/
def ipValue (line : List Char) : Option (List Char) :=
  if startsWithL line ("ip=".data) then some (trimStartMatches line ("ip=".data))
  else none

/-- A sample configuration for concrete runs. -/
def cfg0 : Config := ⟨"admin@example.com", "secretkey", "home.example.com"⟩

/-- A zones-list envelope holding one zone. -/
def zoneRespFull : CloudflareResponse Zone := ⟨true, [], [⟨"z1", "example.com"⟩]⟩

/-- A zones-list envelope with an empty result sequence. -/
def zoneRespEmpty : CloudflareResponse Zone := ⟨true, [], []⟩

/-- A records envelope holding one A and one AAAA record. -/
def recRespFull : CloudflareResponse DnsRecord :=
  ⟨true, [], [⟨"recA", "A", "home.example.com", "203.0.113.1"⟩,
              ⟨"recAAAA", "AAAA", "home.example.com", "2001:db8::5"⟩]⟩

/-- A records envelope with an empty result sequence. -/
def recRespEmpty : CloudflareResponse DnsRecord := ⟨true, [], []⟩

/-- A successful PUT response envelope. -/
def okPutResp : CloudflareResponse DnsRecord := ⟨true, [], []⟩

/-- A decoded PUT response with `success = false` and a provider error list,
as in the provider's `Invalid content` rejection. -/
def failPutResp : CloudflareResponse DnsRecord :=
  ⟨false, [⟨9106, "Invalid content"⟩], []⟩

/-- An environment where every request succeeds and the trace reports an IPv4
address only. -/
def envFull : Env :=
  ⟨some zoneRespFull, some recRespFull, some "ip=5.6.7.8\n",
   fun _ _ _ => some okPutResp⟩

/-- An environment whose zones listing decodes to an empty result sequence. -/
def envNoZone : Env := ⟨some zoneRespEmpty, none, none, fun _ _ _ => none⟩

/-- An environment whose records listing decodes to an empty result
sequence. -/
def envNoRecords : Env := ⟨some zoneRespFull, some recRespEmpty, none, fun _ _ _ => none⟩

/-- An environment where every PUT is answered with the `success = false`
envelope `failPutResp`. -/
def envFail : Env :=
  ⟨some zoneRespFull, some recRespFull, some "ip=203.0.113.5\n",
   fun _ _ _ => some failPutResp⟩

theorem option_some_or {α : Type} (a : α) (y : Option α) : (some a).or y = some a :=
  rfl

theorem option_map_or {α β : Type} (x y : Option α) (f : α → β) :
    (x.or y).map f = (x.map f).or (y.map f) := by
  cases x <;> rfl

theorem records_foldl_eq (l : List DnsRecord) (a b : Option String) :
    l.foldl record_scan_step (a, b) =
      (((l.reverse.find? fun r => r.record_type == "A").map DnsRecord.id).or a,
       ((l.reverse.find? fun r => r.record_type == "AAAA").map DnsRecord.id).or b) := by
  induction l generalizing a b with
  | nil => simp
  | cons r l ih =>
    rw [List.foldl_cons, ih]
    rw [List.reverse_cons, List.find?_append, List.find?_append]
    by_cases hA : r.record_type = "A"
    · simp [record_scan_step, hA, option_map_or, Option.or_assoc, Option.or_none,
        option_some_or]
    · by_cases hB : r.record_type = "AAAA"
      · simp [record_scan_step, hA, hB, option_map_or, Option.or_assoc,
          Option.or_none, option_some_or]
      · simp [record_scan_step, hA, hB, Option.or_none]

theorem trace_foldl_eq (l : List (List Char)) (a b : Option (List Char)) :
    l.foldl trace_scan_step (a, b) =
      (((l.reverse.filterMap ipValue).find? fun v => !(v.contains ':')).or a,
       ((l.reverse.filterMap ipValue).find? fun v => v.contains ':').or b) := by
  induction l generalizing a b with
  | nil => simp
  | cons r l ih =>
    rw [List.foldl_cons, ih]
    rw [List.reverse_cons, List.filterMap_append, List.find?_append, List.find?_append]
    by_cases h1 : startsWithL r ("ip=".data)
    · by_cases h2 : ':' ∈ trimStartMatches r ("ip=".data) <;>
        simp [trace_scan_step, ipValue, h1, h2, Option.or_assoc, Option.or_none,
          option_some_or]
    · simp [trace_scan_step, ipValue, h1, Option.or_none]

theorem get_ip_from_trace_eq (text : String) :
    get_ip_from_trace text =
      ((((rustLines text.data).reverse.filterMap ipValue).find?
          fun v => !(v.contains ':')).map String.mk,
       (((rustLines text.data).reverse.filterMap ipValue).find?
          fun v => v.contains ':').map String.mk) := by
  unfold get_ip_from_trace
  rw [trace_foldl_eq]
  simp [Option.or_none]

theorem update_dns_calls (env : Env) (zone_id record_id domain ip record_type : String) :
    (update_dns env zone_id record_id domain ip record_type).1 =
      [ApiCall.putRecord zone_id record_id ⟨record_type, domain, ip, false⟩] :=
  rfl

theorem update_dns_err_none (env : Env) (zone_id record_id domain ip record_type : String)
    (hput : ∀ z r p, (env.putResp z r p).isSome = true) :
    (update_dns env zone_id record_id domain ip record_type).2.2 = none := by
  obtain ⟨resp, hresp⟩ := Option.isSome_iff_exists.mp
    (hput zone_id record_id ⟨record_type, domain, ip, false⟩)
  unfold update_dns
  dsimp only
  rw [hresp]
  cases hs : resp.success <;> simp [hs]

theorem family_step_err_none (env : Env) (zone_id domain : String)
    (ip record_id : Option String) (record_type family : String)
    (hput : ∀ z r p, (env.putResp z r p).isSome = true) :
    (family_step env zone_id domain ip record_id record_type family).2.2 = none := by
  unfold family_step
  cases ip <;> cases record_id <;>
    simp [update_dns_err_none env _ _ _ _ _ hput]

theorem run_families_err_none (env : Env) (zone_id domain : String)
    (ids ips : Option String × Option String)
    (hput : ∀ z r p, (env.putResp z r p).isSome = true) :
    (run_families env zone_id domain ids ips).2.2 = none := by
  unfold run_families
  dsimp only
  rw [family_step_err_none env zone_id domain ips.1 ids.1 "A" "IPv4" hput]
  exact family_step_err_none env zone_id domain ips.2 ids.2 "AAAA" "IPv6" hput

theorem run_families_calls (env : Env) (zone_id domain : String)
    (ids ips : Option String × Option String)
    (hput : ∀ z r p, (env.putResp z r p).isSome = true) :
    (run_families env zone_id domain ids ips).1 =
      (match ips.1, ids.1 with
       | some ip, some rid => [ApiCall.putRecord zone_id rid ⟨"A", domain, ip, false⟩]
       | _, _ => []) ++
      (match ips.2, ids.2 with
       | some ip, some rid => [ApiCall.putRecord zone_id rid ⟨"AAAA", domain, ip, false⟩]
       | _, _ => []) := by
  obtain ⟨a4, a6⟩ := ips
  obtain ⟨i4, i6⟩ := ids
  unfold run_families
  dsimp only
  rw [family_step_err_none env zone_id domain a4 i4 "A" "IPv4" hput]
  cases a4 <;> cases i4 <;> cases a6 <;> cases i6 <;>
    simp [family_step, update_dns]

theorem run_families_logs_skip (env : Env) (zone_id domain : String)
    (ids ips : Option String × Option String)
    (hput : ∀ z r p, (env.putResp z r p).isSome = true) :
    ((ips.1 = none ∨ ids.1 = none) →
       LogLine.skip "IPv4" ∈ (run_families env zone_id domain ids ips).2.1) ∧
    ((ips.2 = none ∨ ids.2 = none) →
       LogLine.skip "IPv6" ∈ (run_families env zone_id domain ids ips).2.1) := by
  obtain ⟨a4, a6⟩ := ips
  obtain ⟨i4, i6⟩ := ids
  unfold run_families
  dsimp only
  rw [family_step_err_none env zone_id domain a4 i4 "A" "IPv4" hput]
  constructor
  · intro h
    cases a4 <;> cases i4 <;> simp [family_step] <;> simp at h
  · intro h
    cases a6 <;> cases i6 <;> cases a4 <;> cases i4 <;>
      simp [family_step, update_dns_err_none env _ _ _ _ _ hput] <;> simp at h

theorem family_step_calls (env : Env) (zone_id domain : String)
    (ip record_id : Option String) (record_type family : String) :
    (family_step env zone_id domain ip record_id record_type family).1 =
      (match ip, record_id with
       | some i, some r => [ApiCall.putRecord zone_id r ⟨record_type, domain, i, false⟩]
       | _, _ => []) := by
  cases ip <;> cases record_id <;> rfl

theorem run_families_calls_sub (env : Env) (zone_id domain : String)
    (ids ips : Option String × Option String) (c : ApiCall)
    (h : c ∈ (run_families env zone_id domain ids ips).1) :
    c ∈ (family_step env zone_id domain ips.1 ids.1 "A" "IPv4").1 ++
        (family_step env zone_id domain ips.2 ids.2 "AAAA" "IPv6").1 := by
  unfold run_families at h
  dsimp only at h
  rcases hm : (family_step env zone_id domain ips.1 ids.1 "A" "IPv4").2.2 with _ | e
  · rw [hm] at h
    exact h
  · rw [hm] at h
    exact List.mem_append_left _ h

theorem mem_run_families_put (env : Env) (zone_id domain : String)
    (ids ips : Option String × Option String) (z r : String) (p : DnsUpdate)
    (h : ApiCall.putRecord z r p ∈ (run_families env zone_id domain ids ips).1) :
    p.proxied = false ∧ p.name = domain ∧ z = zone_id := by
  have hsub := run_families_calls_sub env zone_id domain ids ips _ h
  rw [family_step_calls, family_step_calls] at hsub
  obtain ⟨a4, a6⟩ := ips
  obtain ⟨i4, i6⟩ := ids
  cases a4 <;> cases i4 <;> cases a6 <;> cases i6 <;>
    simp at hsub <;>
    first
    | (rcases hsub with ⟨h1, h2, h3⟩ | ⟨h1, h2, h3⟩ <;> subst h3 <;> simp [h1])
    | (obtain ⟨h1, h2, h3⟩ := hsub; subst h3; simp [h1])

theorem run_calls_head (env : Env) (cfg : Config) :
    (run env cfg).calls.head? = some (ApiCall.getZones (base_domain cfg.domain)) := by
  unfold run
  dsimp only
  cases hz : env.zoneResp with
  | none => simp [get_zone_id, hz]
  | some zresp =>
    cases hez : zone_id_from_response zresp with
    | error e => simp [get_zone_id, hz, hez]
    | ok zone_id =>
      cases hr : env.recordsResp with
      | none => simp [get_zone_id, get_dns_records, hz, hez, hr]
      | some rresp =>
        cases ht : env.traceText <;>
          simp [get_zone_id, get_dns_records, hz, hez, hr, ht]

theorem run_of_full (env : Env) (cfg : Config) (zresp : CloudflareResponse Zone)
    (z : Zone) (zs : List Zone) (rresp : CloudflareResponse DnsRecord) (text : String)
    (hz : env.zoneResp = some zresp) (hzr : zresp.result = z :: zs)
    (hr : env.recordsResp = some rresp) (ht : env.traceText = some text) :
    run env cfg =
      ⟨[ApiCall.getZones (base_domain cfg.domain),
        ApiCall.getRecords z.id cfg.domain, ApiCall.getTrace] ++
         (run_families env z.id cfg.domain (dns_records_of_response rresp)
           (get_ip_from_trace text)).1,
       [LogLine.starting cfg.domain, LogLine.discoveringZone,
        LogLine.foundZone z.id, LogLine.discoveringRecords,
        LogLine.foundRecords (dns_records_of_response rresp).1
          (dns_records_of_response rresp).2] ++
         (run_families env z.id cfg.domain (dns_records_of_response rresp)
           (get_ip_from_trace text)).2.1,
       (run_families env z.id cfg.domain (dns_records_of_response rresp)
         (get_ip_from_trace text)).2.2⟩ := by
  unfold run
  simp [get_zone_id, get_dns_records, hz, hr, ht, hzr, zone_id_from_response]

example :
    base_domain "sub.example.co.uk" = "co.uk" := by decide

example :
    get_ip_from_trace "ip=203.0.113.5\n" = (some "203.0.113.5", none) := by decide

example :
    get_ip_from_trace "ip=2001:db8::1\nloc=US\n" = (none, some "2001:db8::1") := by
  decide

/-- C2: for every domain string with at least 2 dot-separated labels,
`get_zone_id` builds its zone query from exactly the last 2 labels of the
domain joined by a dot, and a run's first provider call is the zones-list GET
filtered by that name. -/
theorem claim_C2 (d : String) (h : 2 ≤ (splitCh '.' d.data).length)
    (env : Env) (cfg : Config) :
    (∃ pre l1 l2, splitCh '.' d.data = pre ++ [l1, l2] ∧
       base_domain d = String.mk (l1 ++ '.' :: l2)) ∧
    (run env cfg).calls.head? = some (ApiCall.getZones (base_domain cfg.domain)) := by
  refine ⟨?_, run_calls_head env cfg⟩
  rcases hrev : (splitCh '.' d.data).reverse with _ | ⟨a, rest⟩
  · rw [← List.length_reverse, hrev] at h
    simp at h
  · rcases rest with _ | ⟨b, rest⟩
    · rw [← List.length_reverse, hrev] at h
      simp at h
    · refine ⟨rest.reverse, b, a, ?_, ?_⟩
      · have h2 := congrArg List.reverse hrev
        simpa using h2
      · unfold base_domain
        rw [hrev]
        simp [joinDot]

/-- C2 witness: the theorem applied at the concrete domain of the spec's
example, `"sub.example.co.uk"`. -/
theorem claim_C2_witness :
    (∃ pre l1 l2, splitCh '.' "sub.example.co.uk".data = pre ++ [l1, l2] ∧
       base_domain "sub.example.co.uk" = String.mk (l1 ++ '.' :: l2)) ∧
    (run envFull cfg0).calls.head? =
      some (ApiCall.getZones (base_domain cfg0.domain)) :=
  claim_C2 "sub.example.co.uk" (by decide) envFull cfg0

/-- C3: `get_zone_id` returns the first zone's id when the envelope's result
sequence is non-empty, and fails with the zone-not-found error when it is
empty, in which case the run stops after the single zones-list call, with no
record listing, no address fetch and no update. -/
theorem claim_C3 (env : Env) (cfg : Config) (zresp : CloudflareResponse Zone)
    (hz : env.zoneResp = some zresp) :
    (∀ z zs, zresp.result = z :: zs →
       zone_id_from_response zresp = Except.ok z.id) ∧
    (zresp.result = [] →
       zone_id_from_response zresp = Except.error RunError.zoneNotFound ∧
       run env cfg =
         ⟨[ApiCall.getZones (base_domain cfg.domain)],
          [LogLine.starting cfg.domain, LogLine.discoveringZone],
          some RunError.zoneNotFound⟩) := by
  constructor
  · intro z zs hzr
    simp [zone_id_from_response, hzr]
  · intro hemp
    have hzid : zone_id_from_response zresp = Except.error RunError.zoneNotFound := by
      simp [zone_id_from_response, hemp]
    refine ⟨hzid, ?_⟩
    unfold run
    dsimp only
    simp [get_zone_id, hz, hzid]

/-- C3 witness: the theorem applied to a concrete environment whose zone
listing decodes to an empty result sequence. -/
theorem claim_C3_witness :
    zone_id_from_response zoneRespEmpty = Except.error RunError.zoneNotFound ∧
    run envNoZone cfg0 =
      ⟨[ApiCall.getZones (base_domain cfg0.domain)],
       [LogLine.starting cfg0.domain, LogLine.discoveringZone],
       some RunError.zoneNotFound⟩ :=
  (claim_C3 envNoZone cfg0 zoneRespEmpty rfl).2 rfl

/-- C4: `get_dns_records` scans the result sequence in order with
last-one-wins overwriting per type, ignoring other record types: the scanned
pair is exactly the id of the last "A" record and the id of the last "AAAA"
record; in particular two "A" records with ids r1 then r2 resolve to r2. -/
theorem claim_C4 :
    (∀ resp : CloudflareResponse DnsRecord,
       dns_records_of_response resp =
         ((resp.result.reverse.find? fun r => r.record_type == "A").map
            DnsRecord.id,
          (resp.result.reverse.find? fun r => r.record_type == "AAAA").map
            DnsRecord.id)) ∧
    dns_records_of_response
        ⟨true, [], [⟨"r1", "A", "home.example.com", "203.0.113.1"⟩,
                    ⟨"r2", "A", "home.example.com", "203.0.113.2"⟩]⟩ =
      (some "r2", none) := by
  constructor
  · intro resp
    unfold dns_records_of_response
    rw [records_foldl_eq]
    simp [Option.or_none]
  · decide

/-- C9: the outputs of the zone-id and record-id computations depend only on
the envelope's result sequence; the success flag and errors list of a GET
response are never inspected. -/
theorem claim_C9 (e1 e2 : CloudflareResponse Zone)
    (f1 f2 : CloudflareResponse DnsRecord)
    (hz : e1.result = e2.result) (hf : f1.result = f2.result) :
    zone_id_from_response e1 = zone_id_from_response e2 ∧
    dns_records_of_response f1 = dns_records_of_response f2 := by
  constructor
  · unfold zone_id_from_response
    rw [hz]
  · unfold dns_records_of_response
    rw [hf]

/-- C9 witness: the theorem applied to concrete envelope pairs differing only
in success flag and errors list, one with `success = false` and a non-empty
errors list. -/
theorem claim_C9_witness :
    zone_id_from_response ⟨true, [], [⟨"z1", "example.com"⟩]⟩ =
      zone_id_from_response ⟨false, [⟨9000, "failed"⟩], [⟨"z1", "example.com"⟩]⟩ ∧
    dns_records_of_response
        ⟨true, [], [⟨"recA", "A", "home.example.com", "203.0.113.1"⟩]⟩ =
      dns_records_of_response
        ⟨false, [⟨9000, "failed"⟩],
         [⟨"recA", "A", "home.example.com", "203.0.113.1"⟩]⟩ :=
  claim_C9 ⟨true, [], [⟨"z1", "example.com"⟩]⟩
    ⟨false, [⟨9000, "failed"⟩], [⟨"z1", "example.com"⟩]⟩
    ⟨true, [], [⟨"recA", "A", "home.example.com", "203.0.113.1"⟩]⟩
    ⟨false, [⟨9000, "failed"⟩], [⟨"recA", "A", "home.example.com", "203.0.113.1"⟩]⟩
    rfl rfl

/-- C10: with several `ip=` lines, the parser can return both an IPv4 and an
IPv6 address in one invocation, and within each family the value of the last
matching line wins: the result is exactly the last colon-free value and the
last colon-bearing value among the `ip=` lines. -/
theorem claim_C10 :
    (∀ text : String,
       get_ip_from_trace text =
         ((((rustLines text.data).reverse.filterMap ipValue).find?
             fun v => !(v.contains ':')).map String.mk,
          (((rustLines text.data).reverse.filterMap ipValue).find?
             fun v => v.contains ':').map String.mk)) ∧
    get_ip_from_trace "ip=1.2.3.4\nip=2001:db8::1\nip=5.6.7.8\n" =
      (some "5.6.7.8", some "2001:db8::1") :=
  ⟨get_ip_from_trace_eq, by decide⟩

/-- C5: `get_dns_records` never fails on a decoded envelope: for every decoded
envelope, including an empty result sequence, it returns `Ok` of the scanned
pair (both ids possibly absent), and the run proceeds to the address fetch. -/
theorem claim_C5 (env : Env) (zone_id domain : String)
    (resp : CloudflareResponse DnsRecord) (h : env.recordsResp = some resp) :
    (get_dns_records env zone_id domain).2 =
      Except.ok (dns_records_of_response resp) ∧
    (resp.result = [] →
       (get_dns_records env zone_id domain).2 = Except.ok (none, none)) ∧
    (∀ cfg zresp z zs, env.zoneResp = some zresp → zresp.result = z :: zs →
       ApiCall.getTrace ∈ (run env cfg).calls) := by
  refine ⟨by simp [get_dns_records, h], ?_, ?_⟩
  · intro hemp
    simp [get_dns_records, h, dns_records_of_response, hemp]
  · intro cfg zresp z zs hz hzr
    cases ht : env.traceText with
    | none =>
      unfold run
      dsimp only
      simp [get_zone_id, get_dns_records, hz, hzr, zone_id_from_response, h, ht]
    | some text =>
      rw [run_of_full env cfg zresp z zs resp text hz hzr h ht]
      simp

/-- C5 witness: the theorem applied to a concrete environment whose records
listing decodes to an empty result sequence. -/
theorem claim_C5_witness :
    (get_dns_records envNoRecords "z1" "home.example.com").2 =
      Except.ok (none, none) ∧
    ApiCall.getTrace ∈ (run envNoRecords cfg0).calls :=
  ⟨(claim_C5 envNoRecords "z1" "home.example.com" recRespEmpty rfl).2.1 rfl,
   (claim_C5 envNoRecords "z1" "home.example.com" recRespEmpty rfl).2.2 cfg0
     zoneRespFull ⟨"z1", "example.com"⟩ [] rfl rfl⟩

/-- C7: a PUT response that decodes with `success = false` makes `update_dns`
return normally with a logged failure carrying the envelope's errors list
verbatim, and with no transport failure the family sequencing never aborts, so
the other address family is still processed. -/
theorem claim_C7 (env : Env) (zone_id record_id domain ip record_type : String)
    (resp : CloudflareResponse DnsRecord)
    (hresp : env.putResp zone_id record_id ⟨record_type, domain, ip, false⟩ =
       some resp)
    (hfail : resp.success = false) :
    update_dns env zone_id record_id domain ip record_type =
      ([ApiCall.putRecord zone_id record_id ⟨record_type, domain, ip, false⟩],
       [LogLine.updateFailed record_type resp.errors], none) ∧
    (∀ zid d ids ips, (∀ z r p, (env.putResp z r p).isSome = true) →
       (run_families env zid d ids ips).2.2 = none) := by
  constructor
  · unfold update_dns
    dsimp only
    rw [hresp]
    simp [hfail]
  · intro zid d ids ips hput
    exact run_families_err_none env zid d ids ips hput

/-- C7 witness: the theorem applied to a concrete environment whose PUT
responses carry `success = false` with error 9106 "Invalid content"; the
failure line carries that error list and the family sequencing reports no
fatal error. -/
theorem claim_C7_witness :
    update_dns envFail "z1" "recA" "home.example.com" "203.0.113.5" "A" =
      ([ApiCall.putRecord "z1" "recA"
          ⟨"A", "home.example.com", "203.0.113.5", false⟩],
       [LogLine.updateFailed "A" [⟨9106, "Invalid content"⟩]], none) ∧
    (run_families envFail "z1" "home.example.com" (some "recA", some "recAAAA")
       (some "203.0.113.5", some "2001:db8::1")).2.2 = none :=
  ⟨(claim_C7 envFail "z1" "recA" "home.example.com" "203.0.113.5" "A"
      failPutResp rfl rfl).1,
   (claim_C7 envFail "z1" "recA" "home.example.com" "203.0.113.5" "A"
      failPutResp rfl rfl).2 "z1" "home.example.com"
     (some "recA", some "recAAAA") (some "203.0.113.5", some "2001:db8::1")
     (fun _ _ _ => rfl)⟩

/-- C8: the parser keeps the value of the `ip=` line, classified as IPv6 when
it contains a colon and IPv4 otherwise, setting only the corresponding slot;
with no such line both results are absent; and the two example texts parse as
the spec states. -/
theorem claim_C8 :
    (∀ text : String,
       (∀ line ∈ rustLines text.data, startsWithL line ("ip=".data) = false) →
       get_ip_from_trace text = (none, none)) ∧
    (∀ text v, (rustLines text.data).filterMap ipValue = [v] →
       get_ip_from_trace text =
         (if v.contains ':' then (none, some (String.mk v))
          else (some (String.mk v), none))) ∧
    get_ip_from_trace "ip=2001:db8::1\nloc=US\n" = (none, some "2001:db8::1") ∧
    get_ip_from_trace "ip=203.0.113.5\n" = (some "203.0.113.5", none) := by
  refine ⟨?_, ?_, by decide, by decide⟩
  · intro text hnone
    rw [get_ip_from_trace_eq]
    have hfm : (rustLines text.data).reverse.filterMap ipValue = [] := by
      rw [List.filterMap_reverse]
      simp only [List.reverse_eq_nil_iff]
      rw [List.filterMap_eq_nil_iff]
      intro a ha
      simp [ipValue, hnone a ha]
    rw [hfm]
    simp
  · intro text v hv
    rw [get_ip_from_trace_eq, List.filterMap_reverse, hv]
    by_cases hc : ':' ∈ v <;> simp [List.find?, hc]

/-- C8 witness: the no-`ip=`-line part of the theorem applied to a concrete
diagnostic text without any `ip=` line. -/
theorem claim_C8_witness :
    get_ip_from_trace "loc=US\ncolo=SJC\n" = (none, none) :=
  claim_C8.1 "loc=US\ncolo=SJC\n" (by decide)

/-- C1: with the zone resolved, the records and trace decoded, and no
transport failure on PUTs, the run issues an update PUT for an address family
exactly when both the current address and the record id for that family were
found, and prints the family's skip line whenever either is absent. -/
theorem claim_C1 (env : Env) (cfg : Config) (zresp : CloudflareResponse Zone)
    (rresp : CloudflareResponse DnsRecord) (text : String)
    (hz : env.zoneResp = some zresp) (hne : zresp.result ≠ [])
    (hr : env.recordsResp = some rresp) (ht : env.traceText = some text)
    (hput : ∀ z r p, (env.putResp z r p).isSome = true) :
    ((∃ z r p, ApiCall.putRecord z r p ∈ (run env cfg).calls ∧
        p.record_type = "A") ↔
      (get_ip_from_trace text).1.isSome = true ∧
        (dns_records_of_response rresp).1.isSome = true) ∧
    ((∃ z r p, ApiCall.putRecord z r p ∈ (run env cfg).calls ∧
        p.record_type = "AAAA") ↔
      (get_ip_from_trace text).2.isSome = true ∧
        (dns_records_of_response rresp).2.isSome = true) ∧
    (¬ ((get_ip_from_trace text).1.isSome = true ∧
          (dns_records_of_response rresp).1.isSome = true) →
       LogLine.skip "IPv4" ∈ (run env cfg).logs) ∧
    (¬ ((get_ip_from_trace text).2.isSome = true ∧
          (dns_records_of_response rresp).2.isSome = true) →
       LogLine.skip "IPv6" ∈ (run env cfg).logs) := by
  obtain ⟨z, zs, hzr⟩ := List.exists_cons_of_ne_nil hne
  have hrun := run_of_full env cfg zresp z zs rresp text hz hzr hr ht
  have hcalls := run_families_calls env z.id cfg.domain
    (dns_records_of_response rresp) (get_ip_from_trace text) hput
  have hskip := run_families_logs_skip env z.id cfg.domain
    (dns_records_of_response rresp) (get_ip_from_trace text) hput
  rcases hB : dns_records_of_response rresp with ⟨i4, i6⟩
  rcases hA : get_ip_from_trace text with ⟨a4, a6⟩
  rw [hA, hB] at hrun hcalls hskip
  dsimp only at hcalls hskip
  rw [hrun]
  dsimp only
  rw [hcalls]
  refine ⟨?_, ?_, ?_, ?_⟩
  · cases a4 <;> cases i4 <;> cases a6 <;> cases i6 <;> simp <;>
      first
      | exact ⟨_, _, _, ⟨rfl, rfl, rfl⟩, rfl⟩
      | exact ⟨_, _, _, Or.inl ⟨rfl, rfl, rfl⟩, rfl⟩
      | (intro x y u h1 h2 h3; subst h3; simp)
  · cases a4 <;> cases i4 <;> cases a6 <;> cases i6 <;> simp <;>
      first
      | exact ⟨_, _, _, ⟨rfl, rfl, rfl⟩, rfl⟩
      | exact ⟨_, _, _, Or.inr ⟨rfl, rfl, rfl⟩, rfl⟩
      | (intro x y u h1 h2 h3; subst h3; simp)
  · intro hn
    have hor : a4 = none ∨ i4 = none := by
      cases a4 <;> cases i4 <;> simp_all
    exact List.mem_append_right _ (hskip.1 hor)
  · intro hn
    have hor : a6 = none ∨ i6 = none := by
      cases a6 <;> cases i6 <;> simp_all
    exact List.mem_append_right _ (hskip.2 hor)

/-- C1 witness: in a concrete run where the trace reports only an IPv4 address
while an AAAA record id exists, the IPv6 skip line is printed. -/
theorem claim_C1_witness :
    LogLine.skip "IPv6" ∈ (run envFull cfg0).logs :=
  (claim_C1 envFull cfg0 zoneRespFull recRespFull "ip=5.6.7.8\n" rfl
    (by decide) rfl rfl (fun _ _ _ => rfl)).2.2.2 (by decide)

/-- C6: `update_dns` sends exactly the payload built from the record type,
domain and address with `proxied = false`, and every update PUT a run ever
issues has `proxied = false` and carries the configured domain as its name. -/
theorem claim_C6 :
    (∀ env zone_id record_id domain ip record_type,
       (update_dns env zone_id record_id domain ip record_type).1 =
         [ApiCall.putRecord zone_id record_id
            ⟨record_type, domain, ip, false⟩]) ∧
    (∀ env cfg zone_id record_id payload,
       ApiCall.putRecord zone_id record_id payload ∈ (run env cfg).calls →
         payload.proxied = false ∧ payload.name = cfg.domain) := by
  refine ⟨fun env z r d ip t => rfl, ?_⟩
  intro env cfg z r p h
  unfold run at h
  dsimp only at h
  cases hz : env.zoneResp with
  | none => simp [get_zone_id, hz] at h
  | some zresp =>
    cases hez : zone_id_from_response zresp with
    | error e => simp [get_zone_id, hz, hez] at h
    | ok zid =>
      cases hr : env.recordsResp with
      | none => simp [get_zone_id, get_dns_records, hz, hez, hr] at h
      | some rresp =>
        cases ht : env.traceText with
        | none => simp [get_zone_id, get_dns_records, hz, hez, hr, ht] at h
        | some text =>
          simp [get_zone_id, get_dns_records, hz, hez, hr, ht] at h
          obtain ⟨h1, h2, h3⟩ := mem_run_families_put env zid cfg.domain _ _ z r p h
          exact ⟨h1, h2⟩

/-- C6 witness: the theorem applied to the concrete PUT issued in a full run:
its payload has `proxied = false` and names the configured domain. -/
theorem claim_C6_witness :
    (update_dns envFull "z1" "recA" "home.example.com" "5.6.7.8" "A").1 =
      [ApiCall.putRecord "z1" "recA"
         ⟨"A", "home.example.com", "5.6.7.8", false⟩] ∧
    (DnsUpdate.proxied ⟨"A", "home.example.com", "5.6.7.8", false⟩ = false ∧
     DnsUpdate.name ⟨"A", "home.example.com", "5.6.7.8", false⟩ = cfg0.domain) :=
  ⟨claim_C6.1 envFull "z1" "recA" "home.example.com" "5.6.7.8" "A",
   claim_C6.2 envFull cfg0 "z1" "recA"
     ⟨"A", "home.example.com", "5.6.7.8", false⟩ (by decide)⟩
